import Mathlib

set_option maxRecDepth 10000

/-!
Shallow embedding of the SPUR_AGENT chat backend core
(`src/backend/src/routes/chat.ts`,
`src/backend/src/services/conversationService.ts`,
`src/backend/src/services/cacheService.ts` / `llmService.ts`).

Machine nondeterminism of the source (uuid generation, wall-clock reads,
provider network replies) is passed in as explicit parameters; timestamps
are `Nat` seconds, mirroring `Math.floor(Date.now() / 1000)`.
-/

namespace Spur

/-- The character class `String.prototype.trim` removes (ECMA-262
WhiteSpace ∪ LineTerminator): TAB, LF, VT, FF, CR, SP, NBSP, ZWNBSP, the
LS/PS line separators, and the Unicode Space_Separator (Zs) code points
(OGHAM SPACE MARK, U+2000..U+200A, NARROW NO-BREAK SPACE, MEDIUM
MATHEMATICAL SPACE, IDEOGRAPHIC SPACE). -/
def isJsWs (c : Char) : Bool :=
  c = ' ' || c = '\t' || c = '\n' || c = '\r' ||
  c = '\u000B' || c = '\u000C' || c = '\u00A0' || c = '\uFEFF' ||
  c = '\u1680' || ('\u2000' ≤ c && c ≤ '\u200A') ||
  c = '\u2028' || c = '\u2029' || c = '\u202F' || c = '\u205F' || c = '\u3000'

/-- `String.prototype.trim` on the character list of a string. -/
def jsTrimList (l : List Char) : List Char :=
  ((l.dropWhile isJsWs).reverse.dropWhile isJsWs).reverse

/-- `s.trim()` in JavaScript. -/
def jsTrim (s : String) : String :=
  ⟨jsTrimList s.data⟩

/-- `s.includes(pat)` in JavaScript (substring test). -/
def jsIncludes (s pat : String) : Bool :=
  decide (pat.data <:+: s.data)

/-- Row of the `messages` table / the `Message` interface of
`conversationService.ts`. -/
structure Message where
  id : String
  conversationId : String
  sender : String           -- "user" | "ai"
  text : String
  timestamp : Nat
  deriving Repr, DecidableEq

/-- Row of the `conversations` table / the `Conversation` interface. -/
structure Conversation where
  id : String
  createdAt : Nat
  updatedAt : Nat
  deriving Repr, DecidableEq

/-- The SQLite database state: both tables, rows in insertion order. -/
structure Store where
  conversations : List Conversation
  messages : List Message
  deriving Repr, DecidableEq

def Store.empty : Store := ⟨[], []⟩

/-- `ConversationService.getConversation`: SELECT by primary key. -/
def getConversation (s : Store) (conversationId : String) : Option Conversation :=
  s.conversations.find? (fun c => c.id = conversationId)

/-- `ConversationService.createConversation`: INSERT a conversation row with
`created_at = updated_at = now`; the fresh uuid and the clock reading are
parameters. Returns the new id together with the new store. -/
def createConversation (s : Store) (id : String) (now : Nat) : String × Store :=
  (id, { s with conversations := s.conversations ++ [⟨id, now, now⟩] })

/-- `ConversationService.addMessage`: throws `'Conversation not found'` before
any write when the conversation does not exist; otherwise INSERTs the message
row and UPDATEs the conversation's `updated_at` to the message timestamp.
The uuid `id` and the clock reading `timestamp` are parameters.
`updateConvs` is its UPDATE statement:
`UPDATE conversations SET updated_at = ? WHERE id = ?`. -/
def updateConvs (l : List Conversation) (conversationId : String) (timestamp : Nat) :
    List Conversation :=
  l.map (fun c => if c.id = conversationId then { c with updatedAt := timestamp } else c)

def addMessage (s : Store) (conversationId sender text : String)
    (id : String) (timestamp : Nat) : Except String (Message × Store) :=
  match getConversation s conversationId with
  | none => .error "Conversation not found"
  | some _ =>
      let m : Message := ⟨id, conversationId, sender, text, timestamp⟩
      .ok (m,
        { conversations := updateConvs s.conversations conversationId timestamp,
          messages := s.messages ++ [m] })

/-- `ConversationService.getMessages`: SELECT the conversation's messages
ORDER BY timestamp ASC. Messages are appended with non-decreasing
timestamps (see `msgsSorted_validRun` below), so the insertion-order filter
is already in ascending timestamp order. -/
def getMessages (s : Store) (conversationId : String) : List Message :=
  s.messages.filter (fun m => m.conversationId = conversationId)

/-! ## Response cache (`cacheService.ts`)

The Redis value store is a list of key/value pairs. `getCacheKey` lowercases
and trims the raw user message and then takes a SHA-256 hex digest; the
digest is modelled as the normalized text itself (an injective stand-in for
the collision-resistant hash, adequate up to hash collisions), and JS
`toLowerCase` by `String.toLower`, which agrees with it on ASCII (no settled
theorem's computation depends on the normalization of non-ASCII input). -/

/-- `CacheService.getCacheKey`. -/
def getCacheKey (userMessage : String) : String :=
  "chat:" ++ (jsTrim userMessage.toLower)

/-- `CacheService.get` (a connected client and no I/O failure assumed;
the degraded paths return `none` just the same). -/
def cacheGet (cache : List (String × String)) (userMessage : String) : Option String :=
  (cache.find? (fun e => e.1 = getCacheKey userMessage)).map (·.2)

/-- `CacheService.set` via `setEx` (TTL not modelled; entries prepended so a
rewrite shadows an older entry). -/
def cacheSet (cache : List (String × String)) (userMessage reply : String) :
    List (String × String) :=
  (getCacheKey userMessage, reply) :: cache.filter (fun e => e.1 ≠ getCacheKey userMessage)

/-! ## Provider adapter (`llmService.ts`) -/

/-- The `STORE_KNOWLEDGE` system prompt; its exact wording is irrelevant to
every claim, so it is kept as one opaque-to-the-proofs constant string. -/
def STORE_KNOWLEDGE : String :=
  "You are a helpful and friendly customer support agent for SpurStore, a small e-commerce store specializing in tech accessories and gadgets. [store policies and tone guidelines]"

/-- `maxHistoryMessages = 10`. -/
def maxHistoryMessages : Nat := 10

/-- `conversationHistory.slice(-this.maxHistoryMessages)`: the most recent
10 messages (all of them when there are 10 or fewer), order preserved. -/
def recentHistory (conversationHistory : List Message) : List Message :=
  conversationHistory.drop (conversationHistory.length - maxHistoryMessages)

/-- One entry of the OpenAI-style `messages` array. -/
structure ChatMsg where
  role : String
  content : String
  deriving Repr, DecidableEq

/-- History-to-prompt mapping shared by the Groq and OpenAI branches:
`role: msg.sender === 'user' ? 'user' : 'assistant', content: msg.text`. -/
def toChatMsg (m : Message) : ChatMsg :=
  ⟨if m.sender = "user" then "user" else "assistant", m.text⟩

/-- The `messages` array built in `generateWithGroq`: system prompt, then the
truncated history, then the new user message. -/
def groqMessages (userMessage : String) (conversationHistory : List Message) :
    List ChatMsg :=
  ⟨"system", STORE_KNOWLEDGE⟩ ::
    (recentHistory conversationHistory).map toChatMsg ++ [⟨"user", userMessage⟩]

/-- The `messages` array built in `generateWithOpenAI` (same shape as the
Groq branch). -/
def openaiMessages (userMessage : String) (conversationHistory : List Message) :
    List ChatMsg :=
  ⟨"system", STORE_KNOWLEDGE⟩ ::
    (recentHistory conversationHistory).map toChatMsg ++ [⟨"user", userMessage⟩]

/-- One line of the Gemini prompt:
`(msg.sender === 'user' ? 'Customer' : 'Agent') + ': ' + msg.text + '\n'`. -/
def geminiLine (m : Message) : String :=
  (if m.sender = "user" then "Customer" else "Agent") ++ ": " ++ m.text ++ "\n"

/-- The single concatenated `conversationContext` string built in
`generateWithGemini`. -/
def geminiContext (userMessage : String) (conversationHistory : List Message) :
    String :=
  STORE_KNOWLEDGE ++ "\n\nConversation History:\n" ++
    String.join ((recentHistory conversationHistory).map geminiLine) ++
    "\nCustomer: " ++ userMessage ++ "\nAgent:"

/-- Reply extraction of the Groq branch:
`completion.choices[0]?.message?.content?.trim()` followed by
`if (!reply) throw new Error('Empty response from Groq')`. A missing
content (`none`) and an all-whitespace content both fail the `!reply`
truthiness test after trimming. -/
def groqExtract (content : Option String) : Except String String :=
  match content.map jsTrim with
  | none => .error "Empty response from Groq"
  | some reply => if reply = "" then .error "Empty response from Groq" else .ok reply

/-- Reply extraction of the Gemini branch: `response.text().trim()` (the SDK
always yields a string) then the `!reply` check. -/
def geminiExtract (content : String) : Except String String :=
  let reply := jsTrim content
  if reply = "" then .error "Empty response from Gemini" else .ok reply

/-- Reply extraction of the OpenAI branch, same shape as Groq. -/
def openaiExtract (content : Option String) : Except String String :=
  match content.map jsTrim with
  | none => .error "Empty response from OpenAI"
  | some reply => if reply = "" then .error "Empty response from OpenAI" else .ok reply

/-- The raw error value caught by a provider branch, with the fields
`handleError` inspects. `status`/`responseStatus` model `error?.status` and
`error?.response?.status`. -/
structure JsError where
  status : Option Nat
  responseStatus : Option Nat
  code : Option String
  message : String
  deriving Repr, DecidableEq

/-- `error?.status || error?.response?.status` with JavaScript truthiness
(the number 0 is falsy). -/
def JsError.httpStatus (e : JsError) : Option Nat :=
  match e.status with
  | some n => if n = 0 then e.responseStatus else some n
  | none => e.responseStatus

/-- `error.code === 'ECONNABORTED' || error.message?.includes('timeout')`. -/
def JsError.isTimeout (e : JsError) : Bool :=
  e.code = some "ECONNABORTED" || jsIncludes e.message "timeout"

/-- `LLMService.handleError(error, provider)`: always throws; the result is
the thrown error's message. -/
def handleError (e : JsError) (provider : String) : String :=
  if e.httpStatus = some 401 then
    "Invalid " ++ provider ++ " API key. Please check your API key."
  else if e.httpStatus = some 429 then
    provider ++ " rate limit exceeded. Please wait a moment and try again."
  else if e.httpStatus = some 503 then
    provider ++ " service temporarily unavailable. Please try again in a moment."
  else if e.isTimeout then
    "Request to " ++ provider ++ " timed out. Please try again."
  else
    "Failed to generate reply with " ++ provider ++ ": " ++
      (if e.message = "" then "Unknown error" else e.message)

/-! ## `LLMService.generateReply` and the `POST /message` route (`chat.ts`)

The network call of the selected provider branch is abstracted by the
`providerReply` parameter (the text the backend would return for this
request); `providerCalled` and `cacheChecked` record whether the backend
call and the `cacheService.get` call were reached. -/

structure GenResult where
  reply : String
  cache : List (String × String)
  providerCalled : Bool
  cacheChecked : Bool
  deriving Repr, DecidableEq

/-- `LLMService.generateReply(userMessage, conversationHistory)`: consults the
cache only when `conversationHistory.length === 0`, otherwise (or on miss)
dispatches to the provider branch, and writes the fresh reply back to the
cache only when `conversationHistory.length === 0`. -/
def generateReply (cache : List (String × String)) (userMessage : String)
    (conversationHistory : List Message) (providerReply : String) : GenResult :=
  if conversationHistory.length = 0 then
    match cacheGet cache userMessage with
    | some cached =>
        -- `if (cached)`: an empty cached string is falsy and treated as a miss
        if cached = "" then
          ⟨providerReply, cacheSet cache userMessage providerReply, true, true⟩
        else ⟨cached, cache, false, true⟩
    | none => ⟨providerReply, cacheSet cache userMessage providerReply, true, true⟩
  else
    ⟨providerReply, cache, true, false⟩

/-- `messageSchema`: `z.object({ message: z.string().min(1).max(5000), ... })`.
`min`/`max` constrain the raw string length; there is no `.trim()` in the
schema. (JavaScript `.length` counts UTF-16 units; all inputs used here are
ASCII, where it agrees with `String.length`.) -/
def validMessage (message : String) : Bool :=
  1 ≤ message.length && message.length ≤ 5000

/-- The nondeterministic machine inputs of one `POST /message` request:
the uuids drawn and the clock readings and provider reply observed. -/
structure TurnDeps where
  freshConvId : String
  userMsgId : String
  aiMsgId : String
  tConv : Nat
  tUser : Nat
  tAi : Nat
  providerReply : String
  deriving Repr, DecidableEq

/-- Outcome of one `POST /message` request: 400 on a zod failure, 500 when a
service throws, otherwise the JSON `{reply, sessionId}` plus the final
store/cache and the observations needed by the claims (`historyPassed` is
the history array handed to `generateReply`). -/
inductive TurnResult where
  | badRequest
  | serverError (store : Store) (cache : List (String × String))
  | ok (reply : String) (sessionId : String) (store : Store)
      (cache : List (String × String)) (historyPassed : List Message)
      (providerCalled : Bool) (cacheChecked : Bool)
  deriving Repr, DecidableEq

/-- The `chatRouter.post("/message")` handler: validate, resolve or create the
conversation, append the user message, fetch the full history, generate the
reply, append the `ai` message, respond. (The zod uuid-format check on
`sessionId` is not modelled; every claim supplies either no id or an id of an
existing conversation.) -/
def postMessage (s : Store) (cache : List (String × String))
    (message : String) (sessionId : Option String) (d : TurnDeps) : TurnResult :=
  if validMessage message then
    let resolved : String × Store :=
      match sessionId with
      | none => createConversation s d.freshConvId d.tConv
      | some sid =>
          match getConversation s sid with
          | none => createConversation s d.freshConvId d.tConv
          | some _ => (sid, s)
    match addMessage resolved.2 resolved.1 "user" message d.userMsgId d.tUser with
    | .error _ => .serverError resolved.2 cache
    | .ok (_, s2) =>
        let history := getMessages s2 resolved.1
        let g := generateReply cache message history d.providerReply
        match addMessage s2 resolved.1 "ai" g.reply d.aiMsgId d.tAi with
        | .error _ => .serverError s2 g.cache
        | .ok (_, s3) =>
            .ok g.reply resolved.1 s3 g.cache history g.providerCalled g.cacheChecked
  else .badRequest

/-! ## Store invariants and operation sequences -/

/-- The foreign-key invariant (`FOREIGN KEY (conversation_id) REFERENCES
conversations(id)` with `foreign_keys = ON`): every message's conversation
identifier resolves to a conversation row. -/
def WF (s : Store) : Prop :=
  ∀ m ∈ s.messages, ∃ c ∈ s.conversations, c.id = m.conversationId

/-- The timestamp invariant of spec section 3: every conversation's
`updated_at` is at least its `created_at` and at least the timestamp of each
(in particular the newest) of its messages. -/
def Inv (s : Store) : Prop :=
  ∀ c ∈ s.conversations, c.createdAt ≤ c.updatedAt ∧
    ∀ m ∈ s.messages, m.conversationId = c.id → m.timestamp ≤ c.updatedAt

instance (s : Store) : Decidable (WF s) := by
  unfold WF
  infer_instance

instance (s : Store) : Decidable (Inv s) := by
  unfold Inv
  infer_instance

/-- One store operation, carrying the uuid drawn and the clock reading
observed when the service method runs. -/
inductive Op where
  | create (id : String) (now : Nat)
  | append (conversationId sender text id : String) (timestamp : Nat)
  deriving Repr, DecidableEq

def applyOp (s : Store) : Op → Store
  | .create id now => (createConversation s id now).2
  | .append cid sender text id ts =>
      match addMessage s cid sender text id ts with
      | .error _ => s
      | .ok (_, s2) => s2

def runOps (s : Store) (ops : List Op) : Store :=
  ops.foldl applyOp s

/-- Admissibility of one operation against the current store: a created
conversation gets a fresh uuid (no message row references it), and an append
reads a clock that is not behind the conversation it touches — exactly what
`uuidv4()` and the non-decreasing `Date.now()` provide in the source. -/
def opOK (s : Store) : Op → Bool
  | .create id _ => s.messages.all (fun m => m.conversationId != id)
  | .append cid _ _ _ ts =>
      s.conversations.all (fun c => c.id != cid || decide (c.createdAt ≤ ts)) &&
      s.messages.all (fun m => m.conversationId != cid || decide (m.timestamp ≤ ts))

/-- A run of store operations, each admissible in the state it executes in. -/
def validRun : Store → List Op → Bool
  | _, [] => true
  | s, op :: rest => opOK s op && validRun (applyOp s op) rest

lemma find?_updateConvs (l : List Conversation) (cid : String) (ts : Nat) :
    (updateConvs l cid ts).find? (fun c => c.id = cid) =
      (l.find? (fun c => c.id = cid)).map (fun c => { c with updatedAt := ts }) := by
  induction l with
  | nil => rfl
  | cons c l ih =>
      by_cases h : c.id = cid
      · simp [updateConvs, List.find?, h]
      · simp only [updateConvs, List.map_cons] at *
        rw [if_neg h, List.find?_cons_of_neg _ (by simp [h]),
          List.find?_cons_of_neg _ (by simp [h]), ih]

/-- Success characterization of `addMessage`. -/
lemma addMessage_ok {s : Store} {cid : String} {conv : Conversation}
    (sender text id : String) (ts : Nat)
    (h : getConversation s cid = some conv) :
    addMessage s cid sender text id ts =
      .ok (⟨id, cid, sender, text, ts⟩,
        ⟨updateConvs s.conversations cid ts,
          s.messages ++ [⟨id, cid, sender, text, ts⟩]⟩) := by
  simp [addMessage, h]

/-- C5. `addMessage` throws `'Conversation not found'` — before performing
either write — when the conversation id does not resolve; when it does
resolve, the single returned transition contains both effects at once: the
message row is appended and the conversation's `updated_at` equals the
message's timestamp (both visible together, atomically, in the one result
state). -/
theorem addMessage_not_found_or_atomic (s : Store) (cid sender text id : String)
    (ts : Nat) :
    (getConversation s cid = none →
      addMessage s cid sender text id ts = .error "Conversation not found") ∧
    (∀ conv, getConversation s cid = some conv →
      ∃ s2, addMessage s cid sender text id ts =
          .ok (⟨id, cid, sender, text, ts⟩, s2) ∧
        s2.messages = s.messages ++ [⟨id, cid, sender, text, ts⟩] ∧
        getConversation s2 cid = some { conv with updatedAt := ts }) := by
  constructor
  · intro h
    simp [addMessage, h]
  · intro conv h
    refine ⟨_, addMessage_ok sender text id ts h, rfl, ?_⟩
    have h' : s.conversations.find? (fun c => c.id = cid) = some conv := by
      simpa [getConversation] using h
    simp [getConversation, find?_updateConvs, h']

theorem addMessage_not_found_or_atomic_witness :
    (getConversation ⟨[⟨"c", 5, 5⟩], []⟩ "z" = none →
      addMessage ⟨[⟨"c", 5, 5⟩], []⟩ "z" "user" "hi" "m1" 7 =
        .error "Conversation not found") ∧
    (∃ s2, addMessage ⟨[⟨"c", 5, 5⟩], []⟩ "c" "user" "hi" "m1" 7 =
        .ok (⟨"m1", "c", "user", "hi", 7⟩, s2) ∧
      s2.messages = [⟨"m1", "c", "user", "hi", 7⟩] ∧
      getConversation s2 "c" = some ⟨"c", 5, 7⟩) :=
  ⟨(addMessage_not_found_or_atomic ⟨[⟨"c", 5, 5⟩], []⟩ "z" "user" "hi" "m1" 7).1,
    (addMessage_not_found_or_atomic ⟨[⟨"c", 5, 5⟩], []⟩ "c" "user" "hi" "m1" 7).2
      ⟨"c", 5, 5⟩ (by decide)⟩

/-- C9. On a store satisfying the foreign-key invariant, `getMessages` for a
conversation id that does not resolve returns the empty list (the SELECT
simply matches no rows, no error is raised) — indistinguishable from an
existing conversation with zero messages. -/
theorem getMessages_unknown_conversation_empty (s : Store) (cid : String)
    (hwf : WF s) (h : getConversation s cid = none) :
    getMessages s cid = [] := by
  unfold getConversation at h
  have hnone := List.find?_eq_none.mp h
  unfold getMessages
  rw [List.filter_eq_nil_iff]
  intro m hm
  obtain ⟨c, hc, hcid⟩ := hwf m hm
  simp only [decide_eq_true_eq]
  intro heq
  exact absurd (hcid.trans heq) (by simpa using hnone c hc)

theorem getMessages_unknown_conversation_empty_witness :
    getMessages ⟨[⟨"c", 5, 5⟩], [⟨"m1", "c", "user", "hi", 7⟩]⟩ "z" = [] :=
  getMessages_unknown_conversation_empty _ "z"
    (by intro m hm; exact ⟨⟨"c", 5, 5⟩, by simp_all⟩) (by decide)

lemma inv_applyOp {s : Store} {op : Op} (hinv : Inv s) (hok : opOK s op = true) :
    Inv (applyOp s op) := by
  cases op with
  | create id now =>
      simp only [opOK, List.all_eq_true] at hok
      intro c hc
      simp only [applyOp, createConversation, List.mem_append,
        List.mem_singleton] at hc
      rcases hc with hc | rfl
      · exact hinv c hc
      · refine ⟨le_refl _, ?_⟩
        intro m hm heq
        exact absurd heq (by simpa using hok m hm)
  | append cid sender text id ts =>
      simp only [opOK, Bool.and_eq_true, List.all_eq_true] at hok
      obtain ⟨hok1, hok2⟩ := hok
      cases hfind : getConversation s cid with
      | none => simpa [applyOp, addMessage, hfind] using hinv
      | some conv =>
          simp only [applyOp, addMessage_ok sender text id ts hfind]
          intro c' hc'
          simp only [updateConvs, List.mem_map] at hc'
          obtain ⟨c, hc, rfl⟩ := hc'
          by_cases hcid : c.id = cid
          · simp only [if_pos hcid]
            constructor
            · have h1 := hok1 c hc
              simpa [hcid] using h1
            · intro m hm heq
              simp only [hcid] at heq
              rcases List.mem_append.mp hm with hm | hm
              · have h2 := hok2 m hm
                simpa [heq] using h2
              · simp only [List.mem_singleton] at hm
                subst hm
                exact le_refl _
          · simp only [if_neg hcid]
            obtain ⟨h1, h2⟩ := hinv c hc
            refine ⟨h1, ?_⟩
            intro m hm heq
            rcases List.mem_append.mp hm with hm | hm
            · exact h2 m hm heq
            · simp only [List.mem_singleton] at hm
              subst hm
              exact absurd heq.symm hcid

/-- C7. Along every admissible run of store operations (fresh uuids,
non-decreasing clock — as `uuidv4()` and `Date.now()` provide), every
conversation's `updated_at` stays at least its `created_at` and at least the
timestamp of each of its messages, in particular of its newest one. -/
theorem store_timestamp_invariant (s : Store) (ops : List Op)
    (hinv : Inv s) (hrun : validRun s ops = true) :
    Inv (runOps s ops) := by
  induction ops generalizing s with
  | nil => exact hinv
  | cons op rest ih =>
      rw [validRun, Bool.and_eq_true] at hrun
      exact ih (applyOp s op) (inv_applyOp hinv hrun.1) hrun.2

theorem store_timestamp_invariant_witness :
    Inv Store.empty ∧
      validRun Store.empty
        [.create "c" 5, .append "c" "user" "hi" "m1" 6,
         .append "c" "ai" "hello" "m2" 6] = true ∧
      Inv (runOps Store.empty
        [.create "c" 5, .append "c" "user" "hi" "m1" 6,
         .append "c" "ai" "hello" "m2" 6]) :=
  ⟨by decide, by decide,
    store_timestamp_invariant Store.empty _ (by decide) (by decide)⟩

/-- Per-conversation histories are in ascending timestamp order — this is
what makes the insertion-order model of the `ORDER BY timestamp ASC` SELECT
faithful. -/
def MsgsSorted (s : Store) : Prop :=
  ∀ cid, (getMessages s cid).Pairwise (fun a b => a.timestamp ≤ b.timestamp)

lemma msgsSorted_applyOp {s : Store} {op : Op} (hs : MsgsSorted s)
    (hok : opOK s op = true) : MsgsSorted (applyOp s op) := by
  cases op with
  | create id now => exact fun cid => hs cid
  | append cid sender text id ts =>
      simp only [opOK, Bool.and_eq_true, List.all_eq_true] at hok
      obtain ⟨hok1, hok2⟩ := hok
      cases hfind : getConversation s cid with
      | none =>
          intro cid2
          simpa [applyOp, addMessage, hfind] using hs cid2
      | some conv =>
          intro cid2
          simp only [applyOp, addMessage_ok sender text id ts hfind]
          by_cases hm : cid = cid2
          · subst hm
            unfold getMessages
            rw [List.filter_append, List.pairwise_append]
            have hs2 := hs cid
            unfold getMessages at hs2
            refine ⟨hs2, by simp, ?_⟩
            intro a ha b hb
            have hamem := (List.mem_filter.mp ha).1
            have haconv : a.conversationId = cid := by
              simpa using (List.mem_filter.mp ha).2
            have hb' : b = ⟨id, cid, sender, text, ts⟩ := by
              simpa using hb
            subst hb'
            have h2 := hok2 a hamem
            simpa [haconv] using h2
          · unfold getMessages
            rw [List.filter_append]
            have hnil : List.filter
                (fun m => m.conversationId = cid2)
                [(⟨id, cid, sender, text, ts⟩ : Message)] = [] := by
              simp [hm]
            rw [hnil, List.append_nil]
            have hs2 := hs cid2
            unfold getMessages at hs2
            exact hs2

/-- Along every admissible run, every conversation's history stays in
ascending timestamp order. -/
lemma msgsSorted_validRun (s : Store) (ops : List Op) (hs : MsgsSorted s)
    (hrun : validRun s ops = true) : MsgsSorted (runOps s ops) := by
  induction ops generalizing s with
  | nil => exact hs
  | cons op rest ih =>
      rw [validRun, Bool.and_eq_true] at hrun
      exact ih (applyOp s op) (msgsSorted_applyOp hs hrun.1) hrun.2

/-! ## Observations on a turn's outcome -/

def TurnResult.isOk : TurnResult → Bool
  | .ok _ _ _ _ _ _ _ => true
  | _ => false

def TurnResult.store? : TurnResult → Option Store
  | .ok _ _ st _ _ _ _ => some st
  | _ => none

def TurnResult.cache? : TurnResult → Option (List (String × String))
  | .ok _ _ _ ca _ _ _ => some ca
  | _ => none

def TurnResult.reply? : TurnResult → Option String
  | .ok reply _ _ _ _ _ _ => some reply
  | _ => none

def TurnResult.history? : TurnResult → Option (List Message)
  | .ok _ _ _ _ h _ _ => some h
  | _ => none

def TurnResult.providerCalled? : TurnResult → Option Bool
  | .ok _ _ _ _ _ pc _ => some pc
  | _ => none

def TurnResult.cacheChecked? : TurnResult → Option Bool
  | .ok _ _ _ _ _ _ cc => some cc
  | _ => none

/-- C8. Every provider branch truncates its history to
`slice(-maxHistoryMessages)`: a suffix of the history, of length
`min (length) 10` — all of it when there are 10 or fewer messages — in the
original oldest-first order; and each branch's prompt consists of the system
prompt, exactly that truncated history, and then the new user message. -/
theorem provider_truncates_history (u : String) (h : List Message) :
    recentHistory h <:+ h ∧
    (recentHistory h).length = min h.length 10 ∧
    (h.length ≤ 10 → recentHistory h = h) ∧
    groqMessages u h =
      ⟨"system", STORE_KNOWLEDGE⟩ ::
        (recentHistory h).map toChatMsg ++ [⟨"user", u⟩] ∧
    openaiMessages u h =
      ⟨"system", STORE_KNOWLEDGE⟩ ::
        (recentHistory h).map toChatMsg ++ [⟨"user", u⟩] ∧
    geminiContext u h =
      STORE_KNOWLEDGE ++ "\n\nConversation History:\n" ++
        String.join ((recentHistory h).map geminiLine) ++
        "\nCustomer: " ++ u ++ "\nAgent:" := by
  refine ⟨List.drop_suffix _ _, ?_, ?_, rfl, rfl, rfl⟩
  · simp only [recentHistory, maxHistoryMessages, List.length_drop]
    omega
  · intro hle
    simp [recentHistory, maxHistoryMessages, Nat.sub_eq_zero_of_le hle]

theorem provider_truncates_history_witness :
    ([(⟨"m1", "c", "user", "a", 1⟩ : Message),
        ⟨"m2", "c", "ai", "b", 2⟩].length ≤ 10) ∧
      recentHistory [⟨"m1", "c", "user", "a", 1⟩, ⟨"m2", "c", "ai", "b", 2⟩] =
        [⟨"m1", "c", "user", "a", 1⟩, ⟨"m2", "c", "ai", "b", 2⟩] :=
  ⟨by decide,
    (provider_truncates_history "hi"
      [⟨"m1", "c", "user", "a", 1⟩, ⟨"m2", "c", "ai", "b", 2⟩]).2.2.1 (by decide)⟩

/-- C6. `handleError` maps an HTTP 401 to the invalid-credential message,
429 to the rate-limited message, 503 to the backend-unavailable message, a
timeout (status none of those, `ECONNABORTED` code or a message containing
"timeout") to the timeout message, and anything else to the residual message
that carries the original error text (`'Unknown error'` when that text is
empty); and every produced message embeds the provider name. -/
theorem handleError_normalizes (e : JsError) (p : String) :
    (e.httpStatus = some 401 →
      handleError e p = "Invalid " ++ p ++ " API key. Please check your API key.") ∧
    (e.httpStatus = some 429 →
      handleError e p = p ++ " rate limit exceeded. Please wait a moment and try again.") ∧
    (e.httpStatus = some 503 →
      handleError e p = p ++ " service temporarily unavailable. Please try again in a moment.") ∧
    (e.httpStatus ≠ some 401 → e.httpStatus ≠ some 429 → e.httpStatus ≠ some 503 →
      e.isTimeout = true →
      handleError e p = "Request to " ++ p ++ " timed out. Please try again.") ∧
    (e.httpStatus ≠ some 401 → e.httpStatus ≠ some 429 → e.httpStatus ≠ some 503 →
      e.isTimeout = false →
      handleError e p =
        "Failed to generate reply with " ++ p ++ ": " ++
          (if e.message = "" then "Unknown error" else e.message)) ∧
    (∃ a b, handleError e p = a ++ (p ++ b)) := by
  refine ⟨?_, ?_, ?_, ?_, ?_, ?_⟩
  · intro h1
    simp [handleError, h1]
  · intro h2
    simp [handleError, h2]
  · intro h3
    simp [handleError, h3]
  · intro h1 h2 h3 ht
    simp [handleError, h1, h2, h3, ht]
  · intro h1 h2 h3 ht
    simp [handleError, h1, h2, h3, ht]
  · unfold handleError
    split_ifs with h1 h2 h3 h4 h5
    · exact ⟨"Invalid ", " API key. Please check your API key.",
        by simp [String.append_assoc]⟩
    · exact ⟨"", " rate limit exceeded. Please wait a moment and try again.",
        by simp [String.append_assoc]⟩
    · exact ⟨"", " service temporarily unavailable. Please try again in a moment.",
        by simp [String.append_assoc]⟩
    · exact ⟨"Request to ", " timed out. Please try again.",
        by simp [String.append_assoc]⟩
    · exact ⟨"Failed to generate reply with ", ": " ++ "Unknown error",
        by simp [String.append_assoc]⟩
    · exact ⟨"Failed to generate reply with ", ": " ++ e.message,
        by simp [String.append_assoc]⟩

theorem handleError_normalizes_witness :
    handleError ⟨some 401, none, none, ""⟩ "Groq" =
      "Invalid " ++ "Groq" ++ " API key. Please check your API key." ∧
    handleError ⟨some 429, none, none, ""⟩ "Gemini" =
      "Gemini" ++ " rate limit exceeded. Please wait a moment and try again." ∧
    handleError ⟨none, some 503, none, ""⟩ "OpenAI" =
      "OpenAI" ++ " service temporarily unavailable. Please try again in a moment." ∧
    handleError ⟨none, none, some "ECONNABORTED", ""⟩ "Groq" =
      "Request to " ++ "Groq" ++ " timed out. Please try again." ∧
    handleError ⟨none, none, none, "boom"⟩ "OpenAI" =
      "Failed to generate reply with " ++ "OpenAI" ++ ": " ++
        (if ("boom" : String) = "" then "Unknown error" else "boom") :=
  ⟨(handleError_normalizes ⟨some 401, none, none, ""⟩ "Groq").1 (by decide),
    (handleError_normalizes ⟨some 429, none, none, ""⟩ "Gemini").2.1 (by decide),
    (handleError_normalizes ⟨none, some 503, none, ""⟩ "OpenAI").2.2.1 (by decide),
    (handleError_normalizes ⟨none, none, some "ECONNABORTED", ""⟩ "Groq").2.2.2.1
      (by decide) (by decide) (by decide) (by decide),
    (handleError_normalizes ⟨none, none, none, "boom"⟩ "OpenAI").2.2.2.2.1
      (by decide) (by decide) (by decide) (by decide)⟩

/-! ## Trimmed replies (C10) -/

/-- No leading and no trailing whitespace. -/
def noEdgeWs (s : String) : Prop :=
  (∀ c, s.data.head? = some c → isJsWs c = false) ∧
  (∀ c, s.data.getLast? = some c → isJsWs c = false)

lemma jsTrimList_head_not_ws (l : List Char) (c : Char)
    (hc : (jsTrimList l).head? = some c) : isJsWs c = false := by
  unfold jsTrimList at hc
  rw [List.head?_reverse] at hc
  obtain ⟨t, ht⟩ := List.dropWhile_suffix (l := (l.dropWhile isJsWs).reverse)
    (p := isJsWs)
  have h1 : (l.dropWhile isJsWs).reverse.getLast? = some c := by
    rw [← ht, List.getLast?_append, hc]
    rfl
  rw [List.getLast?_reverse] at h1
  have h2 := List.head?_dropWhile_not isJsWs l
  rw [h1] at h2
  exact h2

lemma jsTrimList_last_not_ws (l : List Char) (c : Char)
    (hc : (jsTrimList l).getLast? = some c) : isJsWs c = false := by
  unfold jsTrimList at hc
  rw [List.getLast?_reverse] at hc
  have h2 := List.head?_dropWhile_not isJsWs (l.dropWhile isJsWs).reverse
  rw [hc] at h2
  exact h2

/-- Shared shape of the three `!reply` checks. -/
lemma extract_ok {msg r : String} (t : String)
    (h : (if jsTrim t = "" then (.error msg : Except String String)
            else .ok (jsTrim t)) = .ok r) :
    r = jsTrim t ∧ r ≠ "" ∧ noEdgeWs r := by
  by_cases h0 : jsTrim t = ""
  · rw [if_pos h0] at h
    exact absurd h (by simp)
  · rw [if_neg h0] at h
    have hr : jsTrim t = r := by
      injection h
    subst hr
    refine ⟨rfl, h0, ?_, ?_⟩
    · exact fun c hc => jsTrimList_head_not_ws t.data c hc
    · exact fun c hc => jsTrimList_last_not_ws t.data c hc

/-- C10. A missing backend text fails the `!reply` check, an all-whitespace
backend text fails it after trimming, and every successfully returned reply
is exactly the trimmed backend text: non-empty and free of leading and
trailing whitespace — in each of the three provider branches. -/
theorem provider_reply_trimmed_nonempty (t : String) :
    groqExtract none = .error "Empty response from Groq" ∧
    openaiExtract none = .error "Empty response from OpenAI" ∧
    (∀ r, groqExtract (some t) = .ok r → r = jsTrim t ∧ r ≠ "" ∧ noEdgeWs r) ∧
    (∀ r, openaiExtract (some t) = .ok r → r = jsTrim t ∧ r ≠ "" ∧ noEdgeWs r) ∧
    (∀ r, geminiExtract t = .ok r → r = jsTrim t ∧ r ≠ "" ∧ noEdgeWs r) ∧
    (jsTrim t = "" →
      groqExtract (some t) = .error "Empty response from Groq" ∧
      openaiExtract (some t) = .error "Empty response from OpenAI" ∧
      geminiExtract t = .error "Empty response from Gemini") := by
  refine ⟨rfl, rfl, ?_, ?_, ?_, ?_⟩
  · intro r h
    exact extract_ok t h
  · intro r h
    exact extract_ok t h
  · intro r h
    exact extract_ok t h
  · intro h0
    refine ⟨?_, ?_, ?_⟩ <;>
      simp [groqExtract, openaiExtract, geminiExtract, h0]

theorem provider_reply_trimmed_nonempty_witness :
    (("hi" : String) = jsTrim "\u00A0hi\n" ∧ ("hi" : String) ≠ "" ∧ noEdgeWs "hi") ∧
    (jsTrim " \u000B\u00A0" = "" ∧
      groqExtract (some " \u000B\u00A0") = .error "Empty response from Groq" ∧
      openaiExtract (some " \u000B\u00A0") = .error "Empty response from OpenAI" ∧
      geminiExtract " \u000B\u00A0" = .error "Empty response from Gemini") :=
  ⟨(provider_reply_trimmed_nonempty "\u00A0hi\n").2.2.1 "hi" (by rfl),
    ⟨by decide, (provider_reply_trimmed_nonempty " \u000B\u00A0").2.2.2.2.2 (by decide)⟩⟩

/-! ## The successful turn on an existing conversation (C4) -/

/-- C4 (amended). A valid turn on an existing conversation appends exactly
two messages — the user message with the submitted text, then the `ai`
message with the reply — and sets the conversation's `updated_at` to the
agent message's timestamp: with second-granularity clock readings this is
never below its previous value, and is strictly above it exactly when the
clock has advanced past the previous `updated_at`. -/
theorem chat_turn_appends_two_messages (s : Store)
    (cache : List (String × String)) (message sid : String)
    (conv : Conversation) (d : TurnDeps)
    (hconv : getConversation s sid = some conv)
    (hvalid : validMessage message = true)
    (h1 : conv.updatedAt ≤ d.tUser) (h2 : d.tUser ≤ d.tAi) :
    ∃ st, (postMessage s cache message (some sid) d).store? = some st ∧
      getMessages st sid =
        getMessages s sid ++
          [⟨d.userMsgId, sid, "user", message, d.tUser⟩,
           ⟨d.aiMsgId, sid, "ai", d.providerReply, d.tAi⟩] ∧
      getConversation st sid = some { conv with updatedAt := d.tAi } ∧
      conv.updatedAt ≤ d.tAi := by
  have hfind : s.conversations.find? (fun c => c.id = sid) = some conv := by
    simpa [getConversation] using hconv
  have hadd1 := addMessage_ok "user" message d.userMsgId d.tUser hconv
  have hconv2 : getConversation
      (⟨updateConvs s.conversations sid d.tUser,
        s.messages ++ [⟨d.userMsgId, sid, "user", message, d.tUser⟩]⟩ : Store) sid =
      some { conv with updatedAt := d.tUser } := by
    simp [getConversation, find?_updateConvs, hfind]
  have hadd2 := addMessage_ok "ai" d.providerReply d.aiMsgId d.tAi hconv2
  refine ⟨⟨updateConvs (updateConvs s.conversations sid d.tUser) sid d.tAi,
      (s.messages ++ [⟨d.userMsgId, sid, "user", message, d.tUser⟩]) ++
        [⟨d.aiMsgId, sid, "ai", d.providerReply, d.tAi⟩]⟩, ?_, ?_, ?_,
      le_trans h1 h2⟩
  · simp only [postMessage, hvalid, if_true, hconv, hadd1, generateReply,
      getMessages, List.filter_append]
    simp [TurnResult.store?, hadd2]
  · simp [getMessages, List.filter_append]
  · simp [getConversation, find?_updateConvs, hfind]

theorem chat_turn_appends_two_messages_witness :
    ∃ st, (postMessage ⟨[⟨"c", 5, 5⟩], []⟩ [] "hi" (some "c")
        ⟨"f", "u1", "a1", 6, 6, 7, "re"⟩).store? = some st ∧
      getMessages st "c" =
        [⟨"u1", "c", "user", "hi", 6⟩, ⟨"a1", "c", "ai", "re", 7⟩] ∧
      getConversation st "c" = some ⟨"c", 5, 7⟩ ∧
      (5 : Nat) ≤ 7 :=
  chat_turn_appends_two_messages ⟨[⟨"c", 5, 5⟩], []⟩ [] "hi" "c" ⟨"c", 5, 5⟩
    ⟨"f", "u1", "a1", 6, 6, 7, "re"⟩ (by decide) (by decide) (by decide) (by decide)

/-- C4 counterexample: on a conversation whose `updated_at` is 100, a
successful turn whose clock readings fall in the same second 100 (the
timestamps are whole seconds) leaves `updated_at` at 100 — the history grew
by two but the updated-timestamp did not strictly increase. -/
theorem chat_turn_timestamp_not_strict :
    (postMessage ⟨[⟨"c", 100, 100⟩], []⟩ [] "hi" (some "c")
        ⟨"f", "u1", "a1", 100, 100, 100, "ok"⟩).isOk = true ∧
    ((postMessage ⟨[⟨"c", 100, 100⟩], []⟩ [] "hi" (some "c")
        ⟨"f", "u1", "a1", 100, 100, 100, "ok"⟩).store?.map
      (fun st => (getMessages st "c").length)) = some 2 ∧
    ((postMessage ⟨[⟨"c", 100, 100⟩], []⟩ [] "hi" (some "c")
        ⟨"f", "u1", "a1", 100, 100, 100, "ok"⟩).store?.bind
      (fun st => (getConversation st "c").map (fun c => c.updatedAt))) = some 100 ∧
    ¬ (100 : Nat) < 100 := by
  refine ⟨by decide, by decide, by decide, by decide⟩

/-! ## Wiring defects observable at the route (C1, C2, C3) -/

/-- C1 evidence. Two first-turn `POST /message` requests in two fresh
conversations, with texts `"Return policy?"` and `"return policy? "`, on an
initially empty store and cache: in both turns the history handed to
`generateReply` already contains the just-appended user message (length 1),
so the `conversationHistory.length === 0` guard fails — the cache is never
read (`cacheChecked? = some false`), never written (the cache stays `[]`),
and the provider backend is invoked in both turns, not at most once. -/
theorem first_turn_cache_never_consulted :
    (postMessage Store.empty [] "Return policy?" none
        ⟨"c1", "u1", "a1", 10, 10, 10, "r1"⟩).providerCalled? = some true ∧
    (postMessage Store.empty [] "Return policy?" none
        ⟨"c1", "u1", "a1", 10, 10, 10, "r1"⟩).cacheChecked? = some false ∧
    ((postMessage Store.empty [] "Return policy?" none
        ⟨"c1", "u1", "a1", 10, 10, 10, "r1"⟩).history?.map List.length) = some 1 ∧
    (postMessage Store.empty [] "Return policy?" none
        ⟨"c1", "u1", "a1", 10, 10, 10, "r1"⟩).cache? = some [] ∧
    (postMessage
        (((postMessage Store.empty [] "Return policy?" none
          ⟨"c1", "u1", "a1", 10, 10, 10, "r1"⟩).store?).getD Store.empty)
        (((postMessage Store.empty [] "Return policy?" none
          ⟨"c1", "u1", "a1", 10, 10, 10, "r1"⟩).cache?).getD [])
        "return policy? " none
        ⟨"c2", "u2", "a2", 11, 11, 11, "r2"⟩).providerCalled? = some true ∧
    (postMessage
        (((postMessage Store.empty [] "Return policy?" none
          ⟨"c1", "u1", "a1", 10, 10, 10, "r1"⟩).store?).getD Store.empty)
        (((postMessage Store.empty [] "Return policy?" none
          ⟨"c1", "u1", "a1", 10, 10, 10, "r1"⟩).cache?).getD [])
        "return policy? " none
        ⟨"c2", "u2", "a2", 11, 11, 11, "r2"⟩).cacheChecked? = some false := by
  refine ⟨by decide, by decide, by decide, by decide, by decide, by decide⟩

/-- C2 evidence. On a first turn with text `"Return policy?"`, the route
passes `getMessages` output — which already contains the just-appended user
message — to `generateReply`, and each chat-style provider branch appends
the user message once more: the assembled prompt carries the current user
message twice. -/
theorem prompt_duplicates_user_message :
    ((postMessage Store.empty [] "Return policy?" none
        ⟨"c1", "u1", "a1", 10, 10, 10, "r1"⟩).history?.map
      (List.map (fun m => (m.sender, m.text)))) =
        some [("user", "Return policy?")] ∧
    groqMessages "Return policy?"
        (((postMessage Store.empty [] "Return policy?" none
          ⟨"c1", "u1", "a1", 10, 10, 10, "r1"⟩).history?).getD []) =
      [⟨"system", STORE_KNOWLEDGE⟩, ⟨"user", "Return policy?"⟩,
        ⟨"user", "Return policy?"⟩] ∧
    openaiMessages "Return policy?"
        (((postMessage Store.empty [] "Return policy?" none
          ⟨"c1", "u1", "a1", 10, 10, 10, "r1"⟩).history?).getD []) =
      [⟨"system", STORE_KNOWLEDGE⟩, ⟨"user", "Return policy?"⟩,
        ⟨"user", "Return policy?"⟩] ∧
    ((groqMessages "Return policy?"
        (((postMessage Store.empty [] "Return policy?" none
          ⟨"c1", "u1", "a1", 10, 10, 10, "r1"⟩).history?).getD [])).filter
      (fun m => m = ⟨"user", "Return policy?"⟩)).length = 2 := by
  refine ⟨by decide, by decide, by decide, by decide⟩

/-- C3 evidence. The zod schema is `z.string().min(1).max(5000)` with no
`.trim()`: the whitespace-only message `" "` (length 1, empty after
trimming) passes validation, a conversation is created, and both a user and
an agent message are persisted — not rejected with a validation error. -/
theorem whitespace_only_message_accepted :
    validMessage " " = true ∧
    jsTrim " " = "" ∧
    (postMessage Store.empty [] " " none
        ⟨"c1", "u1", "a1", 10, 10, 10, "re"⟩).isOk = true ∧
    ((postMessage Store.empty [] " " none
        ⟨"c1", "u1", "a1", 10, 10, 10, "re"⟩).store?.map
      (fun st => (st.conversations.length, st.messages.length))) = some (1, 2) := by
  refine ⟨by decide, by decide, by decide, by decide⟩

end Spur
